import Mathlib

/-!
Verification development for the scholarly-publishing-news pipeline.

Shallow embedding of the Python sources:
  * `llm.py`        — `OllamaAgent._call_ollama`, `_parse_json_response`, `check_interest`
  * `content.py`    — `ContentExtractor._validate_url`, `_fetch_html`, `_truncate_text`,
                      `_sanitize_text`, `extract_content`
  * `feeds.py`      — `FeedFetcher.deduplicate_articles`, the `Article` record
  * `rss_generator.py` — `generate_rss_feed`
  * `agent.py` / `database.py` — the run-record lifecycle of `NewsAgent.run`

External effects (the Ollama transport, `json.loads`, DNS resolution, the HTTP
response, BeautifulSoup text extraction, ISO-date rendering) are modelled as
explicit oracle parameters; everything the repository's own code does with the
oracle results is translated directly.
-/

/-! ## Configuration constants (config.py) -/

/-- `Config.MAX_RETRIES` in `config.py`. -/
def MAX_RETRIES : Nat := 2

/-- `ContentExtractor.MAX_RESPONSE_BYTES` in `content.py` (10 MB). -/
def MAX_RESPONSE_BYTES : Nat := 10 * 1024 * 1024

/-! ## JSON values as produced by `json.loads`

JSON numbers are modelled as integers; no claim in scope involves fractional
numbers.  `jobj` keeps the textual key order; `dict_get` resolves duplicate
keys to the last occurrence, as `json.loads` does. -/

inductive JValue where
  | jnull : JValue
  | jbool : Bool → JValue
  | jnum : Int → JValue
  | jstr : String → JValue
  | jarr : List JValue → JValue
  | jobj : List (String × JValue) → JValue

/-- Python truthiness (`bool(x)`) of a decoded JSON value. -/
def truthy : JValue → Bool
  | .jnull => false
  | .jbool b => b
  | .jnum n => n != 0
  | .jstr s => s != ""
  | .jarr l => !l.isEmpty
  | .jobj l => !l.isEmpty

/-- `dict.get key` on a decoded JSON object: later duplicate keys win,
matching `json.loads` semantics. -/
def dict_get : List (String × JValue) → String → Option JValue
  | [], _ => none
  | (k, v) :: rest, key =>
    match dict_get rest key with
    | some w => some w
    | none => if k == key then some v else none

/-- Whether a JSON value is a string (Python `isinstance(x, str)`). -/
def JValue.is_str : JValue → Bool
  | .jstr _ => true
  | _ => false

/-- Whether a JSON value is a boolean (Python `isinstance(x, bool)`). -/
def JValue.is_bool : JValue → Bool
  | .jbool _ => true
  | _ => false

/-- Python type name of a decoded JSON value, as it appears in an
`AttributeError` message. -/
def py_type_name : JValue → String
  | .jnull => "NoneType"
  | .jbool _ => "bool"
  | .jnum _ => "int"
  | .jstr _ => "str"
  | .jarr _ => "list"
  | .jobj _ => "dict"

mutual

/-- Python `repr()` of a decoded JSON value (string escaping inside quoted
strings is not reproduced; no claim depends on it). -/
def py_repr : JValue → String
  | .jnull => "None"
  | .jbool true => "True"
  | .jbool false => "False"
  | .jnum n => toString n
  | .jstr s => "\x27" ++ s ++ "\x27"
  | .jarr l => "[" ++ py_repr_list l ++ "]"
  | .jobj l => "\x7b" ++ py_repr_obj l ++ "\x7d"

/-- Comma-separated `repr` of list elements. -/
def py_repr_list : List JValue → String
  | [] => ""
  | [v] => py_repr v
  | v :: rest => py_repr v ++ ", " ++ py_repr_list rest

/-- Comma-separated `repr` of dict entries. -/
def py_repr_obj : List (String × JValue) → String
  | [] => ""
  | [(k, v)] => "\x27" ++ k ++ "\x27: " ++ py_repr v
  | (k, v) :: rest => "\x27" ++ k ++ "\x27: " ++ py_repr v ++ ", " ++ py_repr_obj rest

end

/-- Python `str()` of a decoded JSON value. -/
def py_str : JValue → String
  | .jstr s => s
  | v => py_repr v

/-- Python `str.lower()` (ASCII case folding; the membership targets
`"true"/"yes"/"1"` are ASCII). -/
def py_lower (s : String) : String := String.mk (s.data.map Char.toLower)

/-! ## llm.py — transport, fence stripping, check_interest -/

/-- `OllamaAgent._call_ollama` (`llm.py` 151-186).  The transport oracle maps
the attempt index to the outcome of `ollama.generate`: `.ok` is the response
text, `.error` the message of the exception raised.  The loop makes
`1 + MAX_RETRIES` attempts and re-raises the last error if all fail. -/
def call_ollama_go (transport : Nat → Except String String) :
    List Nat → Except String String → Except String String
  | [], last_error => last_error
  | i :: rest, _ =>
    match transport i with
    | .ok r => .ok r
    | .error e => call_ollama_go transport rest (.error e)

/-- Entry point of the retry loop: attempts `0, 1, ..., MAX_RETRIES`. -/
def call_ollama (transport : Nat → Except String String) : Except String String :=
  call_ollama_go transport (List.range (1 + MAX_RETRIES)) (.error "")

/-- The Markdown fence-stripping preprocessing of
`OllamaAgent._parse_json_response` (`llm.py` 197-209): strip, drop the first
and last line of a leading code fence, remove fence markers, strip again.
The actual `json.loads` call is an oracle (`String → Option JValue`). -/
def strip_fences (response : String) : String :=
  let response := response.trim
  let response :=
    if response.startsWith "```" then
      let lines := response.splitOn "\n"
      String.intercalate "\n" ((lines.drop 1).dropLast)
    else response
  let response := (response.replace "```json" "").replace "```" ""
  response.trim

/-- Coercion of the `interested` field (`llm.py` 300-305): booleans pass
through, strings are lowercased and matched against `('true', 'yes', '1')`,
anything else takes Python truthiness. -/
def coerce_interested : JValue → Bool
  | .jbool b => b
  | .jstr s => ["true", "yes", "1"].contains (py_lower s)
  | v => truthy v

/-- Coercion of the `reason` field (`llm.py` 306-307):
`str(reason) if reason else 'No reason provided'` for non-strings. -/
def coerce_reason : JValue → String
  | .jstr s => s
  | v => if truthy v then py_str v else "No reason provided"

/-- `OllamaAgent.check_interest` (`llm.py` 263-314).

Oracles: `transport` is the per-attempt `ollama.generate` behaviour;
`json_parse` models `json.loads` on the fence-stripped text (`none` =
`JSONDecodeError`, in which case `_parse_json_response` returns `None`);
`save_outcome` models `_save_prompt_and_response` (`some m` = it raised an
exception with message `m`, e.g. an `OSError`).

Every exception raised inside the `try` block is caught by the trailing
`except Exception` and converted to `(False, "Error: <message>")`; the
function is total (never raises), which the embedding reflects by returning a
plain pair. -/
def check_interest (transport : Nat → Except String String)
    (json_parse : String → Option JValue) (save_outcome : Option String) :
    Bool × String :=
  match call_ollama transport with
  | .error e => (false, "Error: " ++ e)
  | .ok response =>
    match save_outcome with
    | some m => (false, "Error: " ++ m)
    | none =>
      match json_parse (strip_fences response) with
      | none => (false, "Failed to parse LLM response")
      | some parsed =>
        if truthy parsed = false then
          (false, "Failed to parse LLM response")
        else
          match parsed with
          | .jobj kvs =>
            let interested := (dict_get kvs "interested").getD (.jbool false)
            let reason := (dict_get kvs "reason").getD (.jstr "No reason provided")
            (coerce_interested interested, coerce_reason reason)
          | other =>
            (false, "Error: " ++ "\x27" ++ py_type_name other ++
              "\x27 object has no attribute \x27get\x27")

/-! ## content.py — URL validation, bounded fetch, truncation, extraction -/

/-- The classification flags `ipaddress` exposes for one resolved address —
exactly the attributes `_validate_url` reads (`content.py` 61). -/
structure IPInfo where
  is_private : Bool
  is_reserved : Bool
  is_loopback : Bool
  is_link_local : Bool

/-- Whether `_validate_url` rejects a resolved address
(`ip.is_private or ip.is_reserved or ip.is_loopback or ip.is_link_local`). -/
def ip_denied (ip : IPInfo) : Bool :=
  ip.is_private || ip.is_reserved || ip.is_loopback || ip.is_link_local

/-- The result of `urlparse` that `_validate_url` inspects.  `urlparse`
lowercases `scheme` and `hostname`; a missing host is `none`. -/
structure ParsedUrl where
  scheme : String
  hostname : Option String

/-- `ContentExtractor._validate_url` (`content.py` 27-68).

Oracles: `parsed = none` models `urlparse` raising `ValueError`; `resolve`
models `socket.getaddrinfo` plus `ipaddress.ip_address` on each returned
address (`.error` = `gaierror` or `ValueError`, `.ok` = the classified
address list). -/
def validate_url (parsed : Option ParsedUrl)
    (resolve : String → Except Unit (List IPInfo)) : Bool :=
  match parsed with
  | none => false
  | some p =>
    if p.scheme != "http" && p.scheme != "https" then false
    else
      match p.hostname with
      | none => false
      | some hostname =>
        if hostname == "" then false
        else if ["localhost", "127.0.0.1", "::1", "0.0.0.0"].contains hostname then false
        else
          match resolve hostname with
          | .error _ => false
          | .ok addrs => addrs.all (fun ip => !ip_denied ip)

/-- One HTTP response as `_fetch_html` consumes it: the parsed
`Content-Length` header (absent/empty → `none`) and the decoded chunks
produced by `iter_content`. -/
structure Response where
  content_length : Option Nat
  chunks : List String

/-- The incremental read loop of `_fetch_html` (`content.py` 100-111):
accumulate chunks, abort with `None` as soon as the cumulative UTF-8 byte
count exceeds `MAX_RESPONSE_BYTES`.  The second component is the number of
body bytes read. -/
def read_chunks : List String → Nat → List String → Option String × Nat
  | [], bytes_read, acc => (some (String.join acc.reverse), bytes_read)
  | c :: rest, bytes_read, acc =>
    let bytes_read := bytes_read + c.utf8ByteSize
    if bytes_read > MAX_RESPONSE_BYTES then (none, bytes_read)
    else read_chunks rest bytes_read (c :: acc)

/-- `ContentExtractor._fetch_html` (`content.py` 70-118).  `url_safe` is the
result of `_validate_url`; `fetch_result` models `requests.get` together with
`raise_for_status` (`.error` = timeout / `RequestException`).  A declared
`Content-Length` above the cap aborts before any body byte is read.  The
second component counts body bytes read. -/
def fetch_html (url_safe : Bool) (fetch_result : Except Unit Response) :
    Option String × Nat :=
  if url_safe = false then (none, 0)
  else
    match fetch_result with
    | .error _ => (none, 0)
    | .ok response =>
      match response.content_length with
      | some n => if n > MAX_RESPONSE_BYTES then (none, 0)
                  else read_chunks response.chunks 0 []
      | none => read_chunks response.chunks 0 []

/-- Python `str.rfind(c)` on a character list: index of the last occurrence,
`-1` if absent. -/
def py_rfind_char : List Char → Char → Int
  | [], _ => -1
  | x :: rest, c =>
    let r := py_rfind_char rest c
    if r >= 0 then r + 1
    else if x == c then 0 else -1

/-- `ContentExtractor._truncate_text` (`content.py` 184-202): texts longer
than `max_length` are cut to `max_length`, then further cut at the last space
if its index is strictly positive, and `"..."` is appended. -/
def truncate_text (max_length : Nat) (text : List Char) : List Char :=
  if max_length < text.length then
    let truncated := text.take max_length
    let last_space := py_rfind_char truncated ' '
    let truncated := if last_space > 0 then truncated.take last_space.toNat else truncated
    truncated ++ ['.', '.', '.']
  else text

/-- Newline-run collapsing of `_sanitize_text` (`content.py` 177):
`re.sub(r'\n{3,}', '\n\n', text)` — keep at most two consecutive newlines.
`run` is the number of newlines immediately preceding the cursor. -/
def collapse_newlines_aux : Nat → List Char → List Char
  | _, [] => []
  | run, c :: rest =>
    if c == '\n' then
      if run >= 2 then collapse_newlines_aux (run + 1) rest
      else '\n' :: collapse_newlines_aux (run + 1) rest
    else c :: collapse_newlines_aux 0 rest

/-- `ContentExtractor._sanitize_text` (`content.py` 164-182): collapse runs
of 3+ newlines, then keep printable characters and newlines.  `printable`
models Python's Unicode `str.isprintable` classification. -/
def sanitize_text (printable : Char → Bool) (text : List Char) : List Char :=
  (collapse_newlines_aux 0 text).filter (fun c => printable c || c == '\n')

/-- `ContentExtractor.extract_content` (`content.py` 204-235): bounded fetch,
text extraction (`html_to_text` models the BeautifulSoup pipeline of
`_extract_text`), minimum-length gate, sanitization, truncation. -/
def extract_content (min_length max_length : Nat) (url_safe : Bool)
    (fetch_result : Except Unit Response) (html_to_text : String → String)
    (printable : Char → Bool) : Option (List Char) :=
  match (fetch_html url_safe fetch_result).1 with
  | none => none
  | some html =>
    if html == "" then none
    else
      let text := (html_to_text html).data
      if text.length < min_length then none
      else some (truncate_text max_length (sanitize_text printable text))

/-! ## feeds.py — Article and deduplication -/

/-- `Article` (`feeds.py` 17-39). -/
structure Article where
  url : String
  title : String
  source : String
  pub_date : String
  description : String
deriving DecidableEq

/-- `FeedFetcher.deduplicate_articles` (`feeds.py` 189-209): keep the
articles whose `url` is not among the known URLs. -/
def deduplicate_articles (articles : List Article) (existing_urls : List String) :
    List Article :=
  articles.filter (fun article => !existing_urls.contains article.url)

/-! ## rss_generator.py — feed generation -/

/-- One dict parsed back from the current `feed.xml`, as consumed by
`generate_rss_feed` via `.get` (`rss_generator.py` 75-93).  `none` models an
absent key. -/
structure PriorItem where
  title : Option String
  url : Option String
  description : Option String
  pub_date : Option String
  source : Option String
deriving DecidableEq

/-- One `<item>` element of the generated feed, projected to its fields.
`pub_date`/`source` are `none` when the corresponding element is omitted. -/
structure RssItem where
  title : String
  link : String
  description : String
  pub_date : Option String
  source : Option String
  guid : String
deriving DecidableEq

/-- The `<item>` built from a newly accepted `Article`
(`rss_generator.py` 47-72).  `format_date` models
`format_datetime (fromisoformat pub_date)`: `none` = `ValueError`/`TypeError`
(element omitted), `some` = the RFC-822 rendering. -/
def item_of_article (format_date : String → Option String) (a : Article) : RssItem :=
  { title := a.title
    link := a.url
    description := if a.description == "" then "" else a.description
    pub_date := if a.pub_date == "" then none else format_date a.pub_date
    source := if a.source == "" then none else some a.source
    guid := a.url }

/-- The `<item>` carried forward from an existing feed entry
(`rss_generator.py` 75-94). -/
def item_of_existing (e : PriorItem) : RssItem :=
  { title := e.title.getD ""
    link := e.url.getD ""
    description := e.description.getD ""
    pub_date := match e.pub_date with
                | some s => if s == "" then none else some s
                | none => none
    source := match e.source with
              | some s => if s == "" then none else some s
              | none => none
    guid := e.url.getD "" }

/-- The first loop of `generate_rss_feed` (`rss_generator.py` 46-72): emit
one item per new article, breaking as soon as `count` reaches `max_items`.
Returns the emitted items and the updated count. -/
def emit_new (format_date : String → Option String) (max_items : Nat) :
    List Article → Nat → List RssItem × Nat
  | [], count => ([], count)
  | a :: rest, count =>
    if count >= max_items then ([], count)
    else
      let (items, final) := emit_new format_date max_items rest (count + 1)
      (item_of_article format_date a :: items, final)

/-- The second loop of `generate_rss_feed` (`rss_generator.py` 74-94):
append carried-forward items until `max_items` is reached. -/
def emit_existing (max_items : Nat) :
    List PriorItem → Nat → List RssItem × Nat
  | [], count => ([], count)
  | e :: rest, count =>
    if count >= max_items then ([], count)
    else
      let (items, final) := emit_existing max_items rest (count + 1)
      (item_of_existing e :: items, final)

/-- `generate_rss_feed` (`rss_generator.py` 13-113), projected to the
sequence of `<item>` elements written to the channel and the returned count
(channel metadata, XML serialization and the CDATA rewrite do not affect
either). -/
def generate_rss_feed (format_date : String → Option String)
    (new_articles : List Article) (existing_items : List PriorItem)
    (max_items : Nat) : List RssItem × Nat :=
  let (new_items, count) := emit_new format_date max_items new_articles 0
  let (old_items, count) := emit_existing max_items existing_items count
  (new_items ++ old_items, count)

/-! ## agent.py — the run-record lifecycle of `NewsAgent.run`

`Database.start_run` creates the record with status `'running'`;
`Database.complete_run` (`database.py` 214-245) sets the terminal status.
The model tracks how often the record is finalized.  Exceptions are split by
their Python class: `TimeoutError` (raised by the watchdog handler), other
`Exception` subclasses, and `BaseException`-only classes such as
`KeyboardInterrupt`, which neither `except TimeoutError` nor
`except Exception` catches. -/

inductive StepExc where
  | timeout : StepExc
  | exc : String → StepExc
  | base : StepExc
deriving DecidableEq

/-- What one iteration of the article loop (`agent.py` 228-230) does.
`process_article` catches every `Exception` internally (including a watchdog
`TimeoutError` delivered inside its `try` block) and returns a Bool, so the
only article-level events visible to `run` are: the iteration completes, a
`BaseException` escapes, or the watchdog fires at the loop boundary outside
`process_article`'s `try`. -/
inductive ArticleStep where
  | completes : ArticleStep
  | raises_base : ArticleStep
  | boundary_timeout : ArticleStep
deriving DecidableEq

/-- Whether the iteration completes normally. -/
def ArticleStep.is_completes : ArticleStep → Bool
  | .completes => true
  | _ => false

/-- The run record of the `runs` table, restricted to the fields the claim
concerns, plus the number of `complete_run` calls that reached it. -/
structure RunRecord where
  status : String
  error_message : Option String
  finalize_count : Nat
deriving DecidableEq

/-- `Database.start_run` (`database.py` 197-212): the record starts as
`'running'`. -/
def initial_record : RunRecord :=
  { status := "running", error_message := none, finalize_count := 0 }

/-- `Database.complete_run` (`database.py` 214-245):
`status = 'completed' if error_message is None else 'failed'`. -/
def complete_run (r : RunRecord) (error_message : Option String) : RunRecord :=
  { status := if error_message.isNone then "completed" else "failed"
    error_message := error_message
    finalize_count := r.finalize_count + 1 }

/-- One execution trace of `NewsAgent.run` after `start_run` succeeded:
the outcome of `fetch_articles` (`.ok` = the article iterations that follow,
`.error` = the exception it raised), and the outcome of `_print_summary`
(`none` = returns normally; `some e` = raises `e`; the watchdog is already
disarmed there, but the embedding keeps the handler faithful to the code). -/
structure RunTrace where
  fetch_outcome : Except StepExc (List ArticleStep)
  print_outcome : Option StepExc

/-- The success path of `run` after the article loop finished without an
escaping exception (`agent.py` 232-245): `complete_run` with no error, then
`_cancel_timeout`, then `_print_summary` inside the same `try`, whose
exceptions reach the `except` clauses below it. -/
def run_after_processing (t : RunTrace) : RunRecord × Bool :=
  let r := complete_run initial_record none
  match t.print_outcome with
  | none => (r, false)
  | some .timeout => (complete_run r (some "Timeout"), true)
  | some (.exc m) => (complete_run r (some m), true)
  | some .base => (r, true)

/-- `NewsAgent.run` (`agent.py` 198-282), projected to the run record and to
whether an exception escaped the call.  `except TimeoutError` finalizes with
message `"Timeout"` and re-raises; `except Exception` finalizes with the
exception text and re-raises; a bare `BaseException` reaches neither handler,
so the `finally` block (RSS generation and `db.close`, which never touch the
record) runs and the record stays `'running'`. -/
def run_model (t : RunTrace) : RunRecord × Bool :=
  match t.fetch_outcome with
  | .error .timeout => (complete_run initial_record (some "Timeout"), true)
  | .error (.exc m) => (complete_run initial_record (some m), true)
  | .error .base => (initial_record, true)
  | .ok articles =>
    if articles.isEmpty then (complete_run initial_record none, false)
    else
      match articles.find? (fun s => !s.is_completes) with
      | some .raises_base => (initial_record, true)
      | some .boundary_timeout => (complete_run initial_record (some "Timeout"), true)
      | _ => run_after_processing t

/-! ## Shared helper lemmas -/

/-- The retry loop of `_call_ollama` makes exactly the attempts `0, 1, 2`. -/
theorem range_attempts : List.range (1 + MAX_RETRIES) = [0, 1, 2] := by decide

/-- A transport that succeeds on the first attempt makes `_call_ollama`
return that response. -/
theorem call_ollama_first_ok (transport : Nat → Except String String) (r : String)
    (h : transport 0 = .ok r) : call_ollama transport = .ok r := by
  simp [call_ollama, range_attempts, call_ollama_go, h]

/-- A key found by `dict_get` rules out the empty object. -/
theorem dict_get_ne_nil {kvs : List (String × JValue)} {key : String} {v : JValue}
    (h : dict_get kvs key = some v) : kvs ≠ [] := by
  intro hnil; subst hnil; simp [dict_get] at h

/-! ## C1 — check_interest never raises; transport errors map to "Error: <msg>" -/

/-- C1: for every article and every behaviour of the LLM transport (including
raising on every attempt), `check_interest` returns a `(bool, string)` pair —
the embedding is a total function, reflecting the top-level
`except Exception` in `llm.py` 312-314 — and when an exception escapes the
transport layer (all `1 + MAX_RETRIES` attempts raise, so `_call_ollama`
re-raises the last error) or the save layer, the result is
`(False, "Error: <message>")` with the exception text. -/
theorem check_interest_error_contract (transport : Nat → Except String String)
    (json_parse : String → Option JValue) (save_outcome : Option String)
    (e0 e1 e2 : String) :
    (transport 0 = .error e0 → transport 1 = .error e1 → transport 2 = .error e2 →
      check_interest transport json_parse save_outcome = (false, "Error: " ++ e2))
    ∧ (∀ r m, transport 0 = .ok r →
      check_interest transport json_parse (some m) = (false, "Error: " ++ m)) := by
  constructor
  · intro h0 h1 h2
    simp [check_interest, call_ollama, range_attempts, call_ollama_go, h0, h1, h2]
  · intro r m h0
    simp [check_interest, call_ollama_first_ok transport r h0]

/-- Witness for C1: a transport failing all three attempts yields the last
error message; a save-layer failure after a successful call yields its
message. -/
theorem check_interest_error_contract_witness :
    check_interest (fun i => .error (toString i)) (fun _ => none) none
      = (false, "Error: " ++ "2")
    ∧ check_interest (fun _ => .ok "resp") (fun _ => none) (some "disk full")
      = (false, "Error: " ++ "disk full") :=
  ⟨(check_interest_error_contract (fun i => .error (toString i))
      (fun _ => none) none "0" "1" "2").1 rfl rfl rfl,
   (check_interest_error_contract (fun _ => .ok "resp")
      (fun _ => none) (some "disk full") "" "" "").2 "resp" "disk full" rfl⟩

/-! ## C6 — unparseable responses map to "Failed to parse LLM response" -/

/-- C6: whenever the raw response is obtained and `json.loads` fails on the
fence-stripped text (`_parse_json_response` returns `None`, `llm.py` 211-216),
`check_interest` returns exactly `(False, "Failed to parse LLM response")`
(`llm.py` 293-295), without raising (the embedding is total). -/
theorem check_interest_parse_failure (transport : Nat → Except String String)
    (json_parse : String → Option JValue) (raw : String)
    (hok : call_ollama transport = .ok raw)
    (hparse : json_parse (strip_fences raw) = none) :
    check_interest transport json_parse none
      = (false, "Failed to parse LLM response") := by
  simp [check_interest, hok, hparse]

/-- Witness for C6: a non-JSON response. -/
theorem check_interest_parse_failure_witness :
    check_interest (fun _ => .ok "not json") (fun _ => none) none
      = (false, "Failed to parse LLM response") :=
  check_interest_parse_failure (fun _ => .ok "not json") (fun _ => none)
    "not json" (call_ollama_first_ok _ _ rfl) rfl

/-! ## C7 — coercion of the "interested" field (corrected) -/

/-- C7 counterexample: the claim says the string is matched exactly against
`"true"/"yes"/"1"`, anything else resolving to false; but `llm.py` 303
lowercases first (`interested.lower() in ('true', 'yes', '1')`), so the
response `{"interested": "Yes", "reason": "topical"}` resolves to `True`
although `"Yes"` is not in the set. -/
theorem check_interest_exact_match_counterexample :
    check_interest (fun _ => .ok "resp")
      (fun _ => some (.jobj [("interested", .jstr "Yes"), ("reason", .jstr "topical")]))
      none
      = (true, "topical")
    ∧ ¬("Yes" = "true" ∨ "Yes" = "yes" ∨ "Yes" = "1") := by
  constructor
  · decide
  · decide

/-- C7 amended: a string-valued `interested` resolves to true exactly when
its lowercased form is `"true"`, `"yes"` or `"1"` (case-insensitive match);
non-string non-bool values resolve by Python truthiness; the response
`{"interested": "yes", "reason": "topical"}` yields `(True, "topical")`. -/
theorem check_interest_coercion_amended (transport : Nat → Except String String)
    (json_parse : String → Option JValue) (raw : String)
    (kvs : List (String × JValue)) :
    (∀ s, call_ollama transport = .ok raw →
      json_parse (strip_fences raw) = some (.jobj kvs) →
      dict_get kvs "interested" = some (.jstr s) →
      ((check_interest transport json_parse none).1 = true ↔
        (py_lower s = "true" ∨ py_lower s = "yes" ∨ py_lower s = "1")))
    ∧ (∀ v, call_ollama transport = .ok raw →
      json_parse (strip_fences raw) = some (.jobj kvs) →
      dict_get kvs "interested" = some v →
      v.is_str = false → v.is_bool = false →
      (check_interest transport json_parse none).1 = truthy v)
    ∧ (call_ollama transport = .ok raw →
      json_parse (strip_fences raw)
        = some (.jobj [("interested", .jstr "yes"), ("reason", .jstr "topical")]) →
      check_interest transport json_parse none = (true, "topical")) := by
  refine ⟨?_, ?_, ?_⟩
  · intro s hok hparse hget
    have hne : kvs ≠ [] := dict_get_ne_nil hget
    simp [check_interest, hok, hparse, truthy, hne, hget, coerce_interested]
  · intro v hok hparse hget hs hb
    have hne : kvs ≠ [] := dict_get_ne_nil hget
    cases v <;> simp_all [check_interest, hok, hparse, truthy, hne, hget,
      coerce_interested, JValue.is_str, JValue.is_bool]
  · intro hok hparse
    simp [check_interest, hok, hparse]
    decide

/-- Witness for the amended C7: lowercasing makes `"True"` match, a numeric
zero resolves false by truthiness, and the literal example from the spec. -/
theorem check_interest_coercion_amended_witness :
    ((check_interest (fun _ => .ok "a")
        (fun _ => some (.jobj [("interested", .jstr "True")])) none).1 = true ↔
      (py_lower "True" = "true" ∨ py_lower "True" = "yes" ∨ py_lower "True" = "1"))
    ∧ (check_interest (fun _ => .ok "a")
        (fun _ => some (.jobj [("interested", .jnum 0), ("x", .jstr "y")])) none).1
        = truthy (.jnum 0)
    ∧ check_interest (fun _ => .ok "a")
        (fun _ => some (.jobj [("interested", .jstr "yes"), ("reason", .jstr "topical")]))
        none
      = (true, "topical") :=
  ⟨(check_interest_coercion_amended (fun _ => .ok "a")
      (fun _ => some (.jobj [("interested", .jstr "True")])) "a"
      [("interested", .jstr "True")]).1 "True"
      (call_ollama_first_ok _ _ rfl) rfl rfl,
   (check_interest_coercion_amended (fun _ => .ok "a")
      (fun _ => some (.jobj [("interested", .jnum 0), ("x", .jstr "y")])) "a"
      [("interested", .jnum 0), ("x", .jstr "y")]).2.1 (.jnum 0)
      (call_ollama_first_ok _ _ rfl) rfl rfl rfl rfl,
   (check_interest_coercion_amended (fun _ => .ok "a")
      (fun _ => some (.jobj [("interested", .jstr "yes"), ("reason", .jstr "topical")]))
      "a" [("interested", .jstr "yes"), ("reason", .jstr "topical")]).2.2
      (call_ollama_first_ok _ _ rfl) rfl⟩

/-! ## C2 — SSRF URL validation policy -/

/-- C2: `_validate_url` rejects every non-HTTP(S) scheme, missing or empty
hostname, the hostname literals `localhost`/`127.0.0.1`/`::1`/`0.0.0.0`,
every resolution failure, and every URL one of whose resolved addresses is
private, loopback, link-local or reserved; it accepts an HTTP(S) URL whose
hostname is not one of the rejected literals and all of whose resolved
addresses are public (none of the four deny flags). -/
theorem validate_url_ssrf_policy (resolve : String → Except Unit (List IPInfo)) :
    (validate_url none resolve = false)
    ∧ (∀ scheme host, scheme ≠ "http" → scheme ≠ "https" →
        validate_url (some ⟨scheme, host⟩) resolve = false)
    ∧ (∀ scheme, validate_url (some ⟨scheme, none⟩) resolve = false)
    ∧ (∀ scheme, validate_url (some ⟨scheme, some ""⟩) resolve = false)
    ∧ (∀ scheme host, host ∈ ["localhost", "127.0.0.1", "::1", "0.0.0.0"] →
        validate_url (some ⟨scheme, some host⟩) resolve = false)
    ∧ (∀ scheme host, resolve host = .error () →
        validate_url (some ⟨scheme, some host⟩) resolve = false)
    ∧ (∀ scheme host addrs ip, resolve host = .ok addrs → ip ∈ addrs →
        ip_denied ip = true →
        validate_url (some ⟨scheme, some host⟩) resolve = false)
    ∧ (∀ scheme host addrs, (scheme = "http" ∨ scheme = "https") → host ≠ "" →
        host ∉ ["localhost", "127.0.0.1", "::1", "0.0.0.0"] →
        resolve host = .ok addrs → (∀ ip ∈ addrs, ip_denied ip = false) →
        validate_url (some ⟨scheme, some host⟩) resolve = true) := by
  refine ⟨?_, ?_, ?_, ?_, ?_, ?_, ?_, ?_⟩
  · simp [validate_url]
  · intro scheme host h1 h2
    simp [validate_url, h1, h2]
  · intro scheme
    by_cases hs : scheme ≠ "http" && scheme ≠ "https" <;> simp_all [validate_url]
  · intro scheme
    by_cases hs : scheme ≠ "http" && scheme ≠ "https" <;> simp_all [validate_url]
  · intro scheme host hmem
    by_cases hs : scheme ≠ "http" && scheme ≠ "https"
    · simp_all [validate_url]
    · fin_cases hmem <;> simp_all [validate_url]
  · intro scheme host hres
    by_cases hs : scheme ≠ "http" && scheme ≠ "https"
    · simp_all [validate_url]
    · by_cases hhost : host = ""
      · simp_all [validate_url]
      · by_cases hlit : ["localhost", "127.0.0.1", "::1", "0.0.0.0"].contains host <;>
          simp_all [validate_url]
  · intro scheme host addrs ip hres hmem hdeny
    by_cases hs : scheme ≠ "http" && scheme ≠ "https"
    · simp_all [validate_url]
    · by_cases hhost : host = ""
      · simp_all [validate_url]
      · by_cases hlit : ["localhost", "127.0.0.1", "::1", "0.0.0.0"].contains host
        · simp_all [validate_url]
        · simp_all [validate_url]
          intro _
          exact ⟨ip, hmem, hdeny⟩
  · intro scheme host addrs hs hhost hlit hres hpub
    have hs2 : (scheme != "http" && scheme != "https") = false := by
      rcases hs with h | h <;> simp [h]
    simp at hlit
    simp [validate_url, hs2, hhost, hres, List.all_eq_true]
    exact ⟨hlit, hpub⟩

/-- Witness for C2: an HTTPS URL resolving to one public address is accepted. -/
theorem validate_url_ssrf_policy_witness :
    validate_url (some ⟨"https", some "example.com"⟩)
      (fun _ => .ok [⟨false, false, false, false⟩]) = true :=
  (validate_url_ssrf_policy (fun _ => .ok [⟨false, false, false, false⟩])).2.2.2.2.2.2.2
    "https" "example.com" [⟨false, false, false, false⟩]
    (Or.inr rfl) (by decide) (by decide) rfl
    (by intro ip hmem; simp at hmem; simp [hmem, ip_denied])

/-! ## C3 — deduplication is an order-preserving filter and idempotent -/

/-- C3: `deduplicate_articles` is exactly the order-preserving filter of the
input keeping articles whose `url` is not among the known URLs — it is a
sublist of the input, every kept article has an unknown URL, every article
with an unknown URL is kept — and running it a second time against the same
known URLs changes nothing. -/
theorem deduplicate_articles_filter_idempotent (articles : List Article)
    (known_urls : List String) :
    deduplicate_articles articles known_urls
      = articles.filter (fun a => !known_urls.contains a.url)
    ∧ (deduplicate_articles articles known_urls).Sublist articles
    ∧ (∀ a ∈ deduplicate_articles articles known_urls,
        a ∈ articles ∧ a.url ∉ known_urls)
    ∧ (∀ a ∈ articles, a.url ∉ known_urls →
        a ∈ deduplicate_articles articles known_urls)
    ∧ deduplicate_articles (deduplicate_articles articles known_urls) known_urls
      = deduplicate_articles articles known_urls := by
  refine ⟨rfl, List.filter_sublist _, ?_, ?_, ?_⟩
  · intro a ha
    simp [deduplicate_articles, List.mem_filter] at ha
    exact ⟨ha.1, ha.2⟩
  · intro a ha hurl
    simp [deduplicate_articles, List.mem_filter]
    exact ⟨ha, hurl⟩
  · simp [deduplicate_articles, List.filter_filter]

/-! ## C4 — feed ordering and item cap -/

/-- The first loop emits the new articles in order until the cap: it yields
the mapped prefix of length `max_items - count` and advances the count by the
number of items emitted. -/
theorem emit_new_spec (format_date : String → Option String) (max_items : Nat) :
    ∀ (l : List Article) (count : Nat),
    emit_new format_date max_items l count
      = ((l.take (max_items - count)).map (item_of_article format_date),
         count + min (max_items - count) l.length) := by
  intro l
  induction l with
  | nil => intro count; simp [emit_new]
  | cons a rest ih =>
    intro count
    by_cases hc : count >= max_items
    · have h0 : max_items - count = 0 := by omega
      simp [emit_new, hc, h0]
    · have h1 : max_items - count = (max_items - (count + 1)) + 1 := by omega
      simp [emit_new, hc, ih (count + 1), h1]
      omega

/-- The second loop emits the carried-forward items in order until the cap. -/
theorem emit_existing_spec (max_items : Nat) :
    ∀ (l : List PriorItem) (count : Nat),
    emit_existing max_items l count
      = ((l.take (max_items - count)).map item_of_existing,
         count + min (max_items - count) l.length) := by
  intro l
  induction l with
  | nil => intro count; simp [emit_existing]
  | cons e rest ih =>
    intro count
    by_cases hc : count >= max_items
    · have h0 : max_items - count = 0 := by omega
      simp [emit_existing, hc, h0]
    · have h1 : max_items - count = (max_items - (count + 1)) + 1 := by omega
      simp [emit_existing, hc, ih (count + 1), h1]
      omega

/-- C4: `generate_rss_feed` writes the new articles first, in order, then the
carried-forward items, in order, truncated to the first `max_items` items,
and returns the number of items written, `min max_items (new + prior)`; in
particular, with `max_items = 3`, two new articles and three prior items it
writes exactly three items, the two new ones first. -/
theorem generate_rss_feed_order_cap (format_date : String → Option String)
    (new_articles : List Article) (existing_items : List PriorItem)
    (max_items : Nat) :
    (generate_rss_feed format_date new_articles existing_items max_items).1
      = ((new_articles.map (item_of_article format_date))
          ++ (existing_items.map item_of_existing)).take max_items
    ∧ (generate_rss_feed format_date new_articles existing_items max_items).2
      = min max_items (new_articles.length + existing_items.length)
    ∧ generate_rss_feed (fun _ => none)
        [⟨"u1", "t1", "s1", "", "d1"⟩, ⟨"u2", "t2", "s2", "", "d2"⟩]
        [⟨some "pt1", some "pu1", some "pd1", none, none⟩,
         ⟨some "pt2", some "pu2", some "pd2", none, none⟩,
         ⟨some "pt3", some "pu3", some "pd3", none, none⟩] 3
      = ([⟨"t1", "u1", "d1", none, some "s1", "u1"⟩,
          ⟨"t2", "u2", "d2", none, some "s2", "u2"⟩,
          ⟨"pt1", "pu1", "pd1", none, none, "pu1"⟩], 3) := by
  refine ⟨?_, ?_, by decide⟩
  · simp [generate_rss_feed, emit_new_spec, emit_existing_spec,
      List.take_append_eq_append_take, List.map_take]
    congr 1
    omega
  · simp [generate_rss_feed, emit_new_spec, emit_existing_spec]
    omega

/-! ## C5 — the byte cap on content fetches -/

/-- The first cumulative chunk-size sum strictly above `cap`, if the sums
ever exceed it; the specification-side notion of "the moment cumulative
bytes read exceed the cap". -/
def first_exceed (cap : Nat) : List Nat → Nat → Option Nat
  | [], _ => none
  | s :: rest, acc =>
    if acc + s > cap then some (acc + s) else first_exceed cap rest (acc + s)

/-- If some prefix sum exceeds the cap, the incremental read loop stops with
`None` exactly when the first such sum is reached, having read that many
bytes. -/
theorem read_chunks_exceed (chunks : List String) :
    ∀ (n : Nat) (acc : List String) (b : Nat),
    first_exceed MAX_RESPONSE_BYTES (chunks.map String.utf8ByteSize) n = some b →
    read_chunks chunks n acc = (none, b) := by
  induction chunks with
  | nil => intro n acc b h; simp [first_exceed] at h
  | cons c rest ih =>
    intro n acc b h
    simp only [List.map_cons, first_exceed] at h
    by_cases hc : n + c.utf8ByteSize > MAX_RESPONSE_BYTES
    · simp [hc] at h
      subst h
      simp [read_chunks, hc]
    · simp [hc] at h
      simp [read_chunks, hc]
      exact ih _ _ _ h

/-- If the total byte size exceeds the cap, some prefix sum is the first to
exceed it. -/
theorem first_exceed_of_sum (cap : Nat) (sizes : List Nat) :
    ∀ n, n ≤ cap → n + sizes.sum > cap → ∃ b, first_exceed cap sizes n = some b := by
  induction sizes with
  | nil => intro n hle h; simp at h; omega
  | cons s rest ih =>
    intro n hle h
    simp only [first_exceed]
    by_cases hc : n + s > cap
    · exact ⟨n + s, by simp [hc]⟩
    · have := ih (n + s) (by omega) (by simp at h; omega)
      simpa [hc] using this

/-- C5: a declared `Content-Length` above the byte cap makes `_fetch_html`
return `None` with zero body bytes read, and `extract_content` return `None`;
with no `Content-Length` header, as soon as the cumulative bytes read exceed
the cap the fetch aborts with `None` — having read exactly the first
exceeding prefix — and `extract_content` returns `None`. -/
theorem fetch_size_cap (resp : Response) :
    (∀ n, resp.content_length = some n → n > MAX_RESPONSE_BYTES →
      fetch_html true (.ok resp) = (none, 0)
      ∧ ∀ min_length max_length html_to_text printable,
          extract_content min_length max_length true (.ok resp)
            html_to_text printable = none)
    ∧ (∀ b, resp.content_length = none →
      first_exceed MAX_RESPONSE_BYTES (resp.chunks.map String.utf8ByteSize) 0
        = some b →
      fetch_html true (.ok resp) = (none, b)
      ∧ ∀ min_length max_length html_to_text printable,
          extract_content min_length max_length true (.ok resp)
            html_to_text printable = none)
    ∧ (resp.content_length = none →
      (resp.chunks.map String.utf8ByteSize).sum > MAX_RESPONSE_BYTES →
      (fetch_html true (.ok resp)).1 = none) := by
  refine ⟨?_, ?_, ?_⟩
  · intro n hlen hbig
    have hf : fetch_html true (.ok resp) = (none, 0) := by
      simp [fetch_html, hlen, hbig]
    refine ⟨hf, ?_⟩
    intro min_length max_length html_to_text printable
    simp [extract_content, hf]
  · intro b hlen hfe
    have hf : fetch_html true (.ok resp) = (none, b) := by
      simp [fetch_html, hlen]
      exact read_chunks_exceed resp.chunks 0 [] b hfe
    refine ⟨hf, ?_⟩
    intro min_length max_length html_to_text printable
    simp [extract_content, hf]
  · intro hlen hsum
    obtain ⟨b, hb⟩ := first_exceed_of_sum MAX_RESPONSE_BYTES
      (resp.chunks.map String.utf8ByteSize) 0 (by omega) (by omega)
    have hf : fetch_html true (.ok resp) = (none, b) := by
      simp [fetch_html, hlen]
      exact read_chunks_exceed resp.chunks 0 [] b hb
    simp [hf]

/-- The UTF-8 byte size of a string of `n` copies of a one-byte character. -/
theorem utf8ByteSize_replicate (n : Nat) :
    (String.mk (List.replicate n 'a')).utf8ByteSize = n := by
  induction n with
  | zero => rfl
  | succ k ih =>
    have h : (String.mk (List.replicate (k + 1) 'a')).utf8ByteSize
        = (String.mk (List.replicate k 'a')).utf8ByteSize + 1 := by
      have ha : 'a'.utf8Size = 1 := by decide
      simp only [String.utf8ByteSize, List.replicate_succ, String.utf8ByteSize.go, ha]
    omega

/-- Witness for C5: a response declaring 10 MB + 1 bytes is dropped unread,
and a single chunk of 10 MB + 1 bytes aborts the read at that size. -/
theorem fetch_size_cap_witness :
    fetch_html true (.ok ⟨some (MAX_RESPONSE_BYTES + 1), []⟩) = (none, 0)
    ∧ extract_content 200 10000 true (.ok ⟨some (MAX_RESPONSE_BYTES + 1), []⟩)
        id (fun _ => true) = none
    ∧ fetch_html true
        (.ok ⟨none, [String.mk (List.replicate (MAX_RESPONSE_BYTES + 1) 'a')]⟩)
      = (none, MAX_RESPONSE_BYTES + 1) := by
  have h1 := (fetch_size_cap ⟨some (MAX_RESPONSE_BYTES + 1), []⟩).1
    (MAX_RESPONSE_BYTES + 1) rfl (by omega)
  have hfe : first_exceed MAX_RESPONSE_BYTES
      (([String.mk (List.replicate (MAX_RESPONSE_BYTES + 1) 'a')]).map
        String.utf8ByteSize) 0 = some (MAX_RESPONSE_BYTES + 1) := by
    simp only [List.map_cons, List.map_nil, utf8ByteSize_replicate, first_exceed]
    rw [if_pos (by omega : 0 + (MAX_RESPONSE_BYTES + 1) > MAX_RESPONSE_BYTES)]
    norm_num
  have h2 := ((fetch_size_cap
      ⟨none, [String.mk (List.replicate (MAX_RESPONSE_BYTES + 1) 'a')]⟩).2.1
    (MAX_RESPONSE_BYTES + 1) rfl hfe).1
  exact ⟨h1.1, h1.2 200 10000 id (fun _ => true), h2⟩

/-! ## C9 — truncation at a word boundary (corrected) -/

/-- If `rfind` is negative, the character does not occur. -/
theorem py_rfind_char_lt_zero (l : List Char) (c : Char) :
    py_rfind_char l c < 0 → ∀ j : Nat, l[j]? ≠ some c := by
  induction l with
  | nil => intro _ j; simp
  | cons x rest ih =>
    intro h j
    simp only [py_rfind_char] at h
    by_cases hr : py_rfind_char rest c >= 0
    · rw [if_pos hr] at h; omega
    · rw [if_neg hr] at h
      by_cases hx : x == c
      · rw [if_pos hx] at h; omega
      · cases j with
        | zero =>
          simp only [List.getElem?_cons_zero]
          simp at hx
          simp [hx]
        | succ j' =>
          simp only [List.getElem?_cons_succ]
          exact ih (by omega) j'

/-- If `rfind` returns a natural index, that index holds the character and no
later index does: `rfind` finds the last occurrence. -/
theorem py_rfind_char_eq_nat (l : List Char) (c : Char) :
    ∀ i : Nat, py_rfind_char l c = (i : Int) →
    l[i]? = some c ∧ ∀ j, i < j → l[j]? ≠ some c := by
  induction l with
  | nil =>
    intro i h
    simp only [py_rfind_char] at h
    omega
  | cons x rest ih =>
    intro i h
    simp only [py_rfind_char] at h
    by_cases hr : py_rfind_char rest c >= 0
    · rw [if_pos hr] at h
      obtain ⟨k, hk⟩ : ∃ k : Nat, py_rfind_char rest c = (k : Int) :=
        ⟨(py_rfind_char rest c).toNat, (Int.toNat_of_nonneg hr).symm⟩
      have hik : i = k + 1 := by omega
      subst hik
      obtain ⟨h1, h2⟩ := ih k hk
      refine ⟨by simpa using h1, ?_⟩
      intro j hj
      cases j with
      | zero => omega
      | succ j' =>
        simp only [List.getElem?_cons_succ]
        exact h2 j' (by omega)
    · rw [if_neg hr] at h
      by_cases hx : x == c
      · rw [if_pos hx] at h
        have hi : i = 0 := by omega
        subst hi
        have hxc : x = c := by simpa using hx
        refine ⟨by simp [hxc], ?_⟩
        intro j hj
        cases j with
        | zero => omega
        | succ j' =>
          simp only [List.getElem?_cons_succ]
          exact py_rfind_char_lt_zero rest c (by omega) j'
      · rw [if_neg hx] at h
        omega

/-- Position `i` holds the last space of `t`: specification-side notion of
"the last word boundary". -/
def is_last_space (t : List Char) (i : Nat) : Prop :=
  t[i]? = some ' ' ∧ ∀ j, j < t.length → i < j → t[j]? ≠ some ' '

instance (t : List Char) (i : Nat) : Decidable (is_last_space t i) := by
  unfold is_last_space
  infer_instance

/-- C9 counterexample: with `max_length = 5` and text `" aaaaaa"`, the last
word boundary at or before the limit is the space at index 0, so the claimed
behaviour would produce `"..."`; the code requires `last_space > 0`
(`content.py` 198) and instead returns `" aaaa..."`. -/
theorem truncate_text_word_boundary_counterexample :
    truncate_text 5 " aaaaaa".data = " aaaa...".data
    ∧ is_last_space (" aaaaaa".data.take 5) 0
    ∧ " aaaa...".data ≠ (" aaaaaa".data.take 5).take 0 ++ ['.', '.', '.'] := by
  refine ⟨by decide, by decide, by decide⟩

/-- C9 amended: text at or under the limit is returned unchanged; longer text
is cut to the first `max_length` characters and then, when the last space of
that prefix sits at a strictly positive index, further cut at that space
before the three-character ellipsis is appended; when the prefix has no space
at a positive index (no space at all, or only at index 0), the cut stays at
the limit. -/
theorem truncate_text_amended (max_length : Nat) (text : List Char) :
    (text.length ≤ max_length → truncate_text max_length text = text)
    ∧ (max_length < text.length →
        (∀ i, 0 < i → is_last_space (text.take max_length) i →
          truncate_text max_length text
            = (text.take max_length).take i ++ ['.', '.', '.'])
        ∧ ((∀ j, j < (text.take max_length).length → 0 < j →
              (text.take max_length)[j]? ≠ some ' ') →
          truncate_text max_length text
            = text.take max_length ++ ['.', '.', '.'])) := by
  constructor
  · intro h
    simp [truncate_text, Nat.not_lt.mpr h]
  · intro hlen
    constructor
    · intro i hi hlast
      obtain ⟨hspace, hafter⟩ := hlast
      have hrf : py_rfind_char (text.take max_length) ' ' = (i : Int) := by
        by_cases hr : py_rfind_char (text.take max_length) ' ' >= 0
        · obtain ⟨k, hk⟩ : ∃ k : Nat,
              py_rfind_char (text.take max_length) ' ' = (k : Int) :=
            ⟨_, (Int.toNat_of_nonneg hr).symm⟩
          obtain ⟨h1, h2⟩ := py_rfind_char_eq_nat (text.take max_length) ' ' k hk
          rcases Nat.lt_trichotomy k i with hki | hki | hki
          · exact absurd hspace (h2 i hki)
          · rw [hk, hki]
          · have hklen : k < (text.take max_length).length := by
              by_contra hge
              rw [List.getElem?_eq_none (by omega)] at h1
              exact Option.noConfusion h1
            exact absurd h1 (hafter k hklen hki)
        · exact absurd hspace
            (py_rfind_char_lt_zero (text.take max_length) ' ' (by omega) i)
      simp [truncate_text, hlen, hrf, hi]
    · intro hnone
      have hrf : ¬ py_rfind_char (text.take max_length) ' ' > 0 := by
        intro hgt
        obtain ⟨k, hk⟩ : ∃ k : Nat,
            py_rfind_char (text.take max_length) ' ' = (k : Int) :=
          ⟨_, (Int.toNat_of_nonneg (by omega)).symm⟩
        have hkpos : 0 < k := by omega
        obtain ⟨h1, _⟩ := py_rfind_char_eq_nat (text.take max_length) ' ' k hk
        have hklen : k < (text.take max_length).length := by
          by_contra hge
          rw [List.getElem?_eq_none (by omega)] at h1
          exact Option.noConfusion h1
        exact hnone k hklen hkpos h1
      simp [truncate_text, hlen, hrf]

/-- Witness for the amended C9: `"ab cdefgh"` with limit 7 is cut at the
space (index 2); `"abcdefgh"` with limit 5, having no space, is cut at the
limit; `"abc"` with limit 5 is unchanged. -/
theorem truncate_text_amended_witness :
    truncate_text 7 "ab cdefgh".data
      = ("ab cdefgh".data.take 7).take 2 ++ ['.', '.', '.']
    ∧ truncate_text 5 "abcdefgh".data
      = "abcdefgh".data.take 5 ++ ['.', '.', '.']
    ∧ truncate_text 5 "abc".data = "abc".data :=
  ⟨((truncate_text_amended 7 "ab cdefgh".data).2 (by decide)).1 2
      (by decide) (by decide),
   ((truncate_text_amended 5 "abcdefgh".data).2 (by decide)).2 (by decide),
   (truncate_text_amended 5 "abc".data).1 (by decide)⟩

/-! ## C10 — extracted content is at most max_length + 3 characters -/

/-- The truncation step never returns more than `max_length` characters plus
the three-character ellipsis. -/
theorem truncate_text_length_le (max_length : Nat) (text : List Char) :
    (truncate_text max_length text).length ≤ max_length + 3 := by
  unfold truncate_text
  by_cases h : max_length < text.length
  · rw [if_pos h]
    by_cases hr : py_rfind_char (text.take max_length) ' ' > 0
    · simp [hr, List.length_take]
    · simp [hr, List.length_take]
  · rw [if_neg h]
    omega

/-- C10: whenever `extract_content` returns a string, its length is at most
the configured maximum article length plus 3 — the ellipsis marker may push
the result past the limit, but never by more than its own three characters. -/
theorem extract_content_length_bound (min_length max_length : Nat)
    (url_safe : Bool) (fetch_result : Except Unit Response)
    (html_to_text : String → String) (printable : Char → Bool) (s : List Char)
    (h : extract_content min_length max_length url_safe fetch_result
          html_to_text printable = some s) :
    s.length ≤ max_length + 3 := by
  unfold extract_content at h
  cases hf : (fetch_html url_safe fetch_result).1 with
  | none => rw [hf] at h; exact Option.noConfusion h
  | some html =>
    simp only [hf] at h
    by_cases hh : html == ""
    · simp [hh] at h
    · simp only [hh, Bool.false_eq_true, if_false] at h
      split at h
      · exact Option.noConfusion h
      · have hs := Option.some.inj h
        subst hs
        exact truncate_text_length_le max_length _

/-- Witness for C10: a four-character page with limit 2 yields `"ab..."`,
five characters, within the bound `2 + 3`. -/
theorem extract_content_length_bound_witness :
    "ab...".data.length ≤ 2 + 3 :=
  extract_content_length_bound 1 2 true (.ok ⟨none, ["abcd"]⟩) id
    (fun _ => true) "ab...".data (by decide)

/-! ## C8 — run-record finalization (corrected) -/

/-- C8 counterexample: in `agent.py` the success-path `complete_run` (line
233) runs inside the `try` block before `_print_summary` (line 245); if
`_print_summary` raises an `Exception` (its database queries can), the
`except Exception` handler (lines 259-269) calls `complete_run` a second
time, so the record created by this run reaches a terminal status twice —
first `completed`, then `failed` — not exactly once as claimed. -/
theorem run_record_finalization_counterexample :
    (run_model ⟨.ok [.completes], some (.exc "stats query failed")⟩).1.finalize_count
      = 2
    ∧ (run_model ⟨.ok [.completes], some (.exc "stats query failed")⟩).1.status
      = "failed"
    ∧ ¬(run_model ⟨.ok [.completes], some (.exc "stats query failed")⟩).1.finalize_count
      = 1 := by
  refine ⟨by decide, by decide, by decide⟩

/-- C8 amended: in every run that creates a run record, as long as every
escaping exception derives from `Exception`, the record reaches a terminal
status — `completed` when the pipeline completes, `failed` with an error
message when `fetch_articles` raises or the watchdog fires — and it is
finalized exactly once, except that an `Exception` raised during summary
printing after the successful finalization finalizes the record a second
time, as `failed`; a `BaseException` (e.g. `KeyboardInterrupt`) bypasses
both handlers and leaves the record unfinalized in status `running`. -/
theorem run_record_finalization_amended (t : RunTrace) :
    (t.fetch_outcome = .error .timeout →
      (run_model t).1 = ⟨"failed", some "Timeout", 1⟩)
    ∧ (∀ m, t.fetch_outcome = .error (.exc m) →
      (run_model t).1 = ⟨"failed", some m, 1⟩)
    ∧ (t.fetch_outcome = .error .base →
      (run_model t).1 = ⟨"running", none, 0⟩)
    ∧ (∀ articles, t.fetch_outcome = .ok articles →
      articles.find? (fun s => !s.is_completes) = some .raises_base →
      (run_model t).1 = ⟨"running", none, 0⟩)
    ∧ (∀ articles, t.fetch_outcome = .ok articles →
      articles.find? (fun s => !s.is_completes) = some .boundary_timeout →
      (run_model t).1 = ⟨"failed", some "Timeout", 1⟩)
    ∧ (∀ articles, t.fetch_outcome = .ok articles →
      articles.find? (fun s => !s.is_completes) = none →
      t.print_outcome = none →
      (run_model t).1 = ⟨"completed", none, 1⟩ ∧ (run_model t).2 = false)
    ∧ (∀ articles m, t.fetch_outcome = .ok articles → articles ≠ [] →
      articles.find? (fun s => !s.is_completes) = none →
      t.print_outcome = some (.exc m) →
      (run_model t).1 = ⟨"failed", some m, 2⟩)
    ∧ (∀ articles, t.fetch_outcome = .ok articles → articles ≠ [] →
      articles.find? (fun s => !s.is_completes) = none →
      t.print_outcome = some .base →
      (run_model t).1 = ⟨"completed", none, 1⟩ ∧ (run_model t).2 = true) := by
  refine ⟨?_, ?_, ?_, ?_, ?_, ?_, ?_, ?_⟩
  · intro hf
    simp [run_model, hf, complete_run, initial_record]
  · intro m hf
    simp [run_model, hf, complete_run, initial_record]
  · intro hf
    simp [run_model, hf, initial_record]
  · intro articles hf hfind
    have hne : articles.isEmpty = false := by
      cases articles with
      | nil => simp [List.find?] at hfind
      | cons a rest => simp
    simp [run_model, hf, hne, hfind, initial_record]
  · intro articles hf hfind
    have hne : articles.isEmpty = false := by
      cases articles with
      | nil => simp [List.find?] at hfind
      | cons a rest => simp
    simp [run_model, hf, hne, hfind, complete_run, initial_record]
  · intro articles hf hfind hp
    by_cases hne : articles.isEmpty
    · simp [run_model, hf, hne, complete_run, initial_record]
    · simp [run_model, hf, hne, hfind, run_after_processing, hp,
        complete_run, initial_record]
  · intro articles m hf hne hfind hp
    have hne2 : articles.isEmpty = false := by
      cases articles with
      | nil => simp at hne
      | cons a rest => simp
    simp [run_model, hf, hne2, hfind, run_after_processing, hp,
      complete_run, initial_record]
  · intro articles hf hne hfind hp
    have hne2 : articles.isEmpty = false := by
      cases articles with
      | nil => simp at hne
      | cons a rest => simp
    simp [run_model, hf, hne2, hfind, run_after_processing, hp,
      complete_run, initial_record]

/-- Witness for the amended C8: a run with one clean article iteration and a
quiet summary printer is finalized once as completed; a watchdog timeout
during fetch is finalized once as failed with the "Timeout" message. -/
theorem run_record_finalization_amended_witness :
    ((run_model ⟨.ok [.completes], none⟩).1 = ⟨"completed", none, 1⟩
      ∧ (run_model ⟨.ok [.completes], none⟩).2 = false)
    ∧ (run_model ⟨.error .timeout, none⟩).1 = ⟨"failed", some "Timeout", 1⟩ :=
  ⟨(run_record_finalization_amended ⟨.ok [.completes], none⟩).2.2.2.2.2.1
      [.completes] rfl (by decide) rfl,
   (run_record_finalization_amended ⟨.error .timeout, none⟩).1 rfl⟩
